import Mathlib

/-!
Verification of the Ball-Tracker pipeline (src/main.py).

The program is a linear pipeline: acquire a frame, mask the target color,
pick the largest contour, test it against a minimum enclosing-circle
radius, compute its centroid from the moments, and classify the centroid's
horizontal position against a midpoint with a symmetric dead zone.

The embedding below mirrors the decision logic of `process_frame`,
`initialize_video_capture` and `main` from the source.  The heavy image
processing (blur, HSV conversion, masking, contour extraction, moment
computation) is delegated to OpenCV in the source; its OUTPUT — the list
of contours, each carrying its area, minimum-enclosing-circle radius and
moments — is the input of the embedded detector, exactly the data the
source's decision logic consumes.
-/

namespace BallTracker

/-- Configured constants of src/main.py (lines 15-17). -/
def FRAME_WIDTH : Int := 1200

def LATERAL_THRESHOLD : Int := 100

def MIN_RADIUS : ℚ := 10

/-- The classification outcomes produced by `process_frame`
(the `direction` string). -/
inductive Direction where
  | Left
  | Center
  | Right
  | NotDetected
deriving DecidableEq, Repr

/-- A contour as the source's decision logic sees it: its pixel area
(`cv2.contourArea`), minimum-enclosing-circle radius
(`cv2.minEnclosingCircle`), and the moments m00, m10, m01
(`cv2.moments`). -/
structure Contour where
  area : ℚ
  radius : ℚ
  m00 : ℚ
  m10 : ℚ
  m01 : ℚ
deriving DecidableEq, Repr

/-- Python's `int(a / b)` truncates the quotient toward zero; the exact
rational `a / b` is `(a.num * b.den) / (a.den * b.num)`, and `Int.tdiv`
is exactly truncation toward zero. -/
def pyIntDiv (a b : ℚ) : Int :=
  Int.tdiv (a.num * (b.den : Int)) ((a.den : Int) * b.num)

/-- `max(cnts, key=cv2.contourArea)` (src/main.py line 83): Python's
`max` returns the first element attaining the maximal key. -/
def maxByArea : List Contour → Option Contour
  | [] => none
  | c :: cs => some (cs.foldl (fun best x => if best.area < x.area then x else best) c)

/-- A successful detection: integer centroid and enclosing-circle
radius. -/
structure Detection where
  center : Int × Int
  radius : ℚ
deriving DecidableEq, Repr

/-- The detection step of `process_frame` (src/main.py lines 81-88):
if any contour exists, take the largest by area; if its zeroth moment is
positive and its enclosing radius strictly exceeds MIN_RADIUS, return the
centroid `(int(m10/m00), int(m01/m00))` with the radius; otherwise no
detection. -/
def detect (cnts : List Contour) : Option Detection :=
  match maxByArea cnts with
  | none => none
  | some c =>
    if 0 < c.m00 ∧ MIN_RADIUS < c.radius then
      some ⟨(pyIntDiv c.m10 c.m00, pyIntDiv c.m01 c.m00), c.radius⟩
    else
      none

/-- The classification step of `process_frame` (src/main.py lines
96-102): `frame_center = frame_width // 2` (Python floor division), then
strict comparisons against `frame_center ± threshold`. -/
def classifyDirection (center_x frame_width threshold : Int) : Direction :=
  let frame_center := Int.fdiv frame_width 2
  if center_x < frame_center - threshold then
    Direction.Left
  else if frame_center + threshold < center_x then
    Direction.Right
  else
    Direction.Center

/-- The direction `process_frame` reports for a frame whose mask produced
the given contours (src/main.py lines 78-108): `"Not Detected"` unless
detection succeeds, in which case the centroid's x-coordinate is
classified against the configured constants. -/
def processDirection (cnts : List Contour) : Direction :=
  match detect cnts with
  | none => Direction.NotDetected
  | some d => classifyDirection d.center.1 FRAME_WIDTH LATERAL_THRESHOLD

/-- CLI mode (src/main.py lines 182-183): `web` or `mobile`. -/
inductive Mode where
  | web
  | mobile
deriving DecidableEq, Repr

/-- Python truthiness of an optional string argument: `None` and the
empty string are falsy. -/
def pyTruthy : Option String → Bool
  | none => false
  | some s => s ≠ ""

/-- `initialize_video_capture` (src/main.py lines 31-49).  `deviceOpens`
is whether `cap.isOpened()` would report true for the requested
device/stream.  Returns the capture (modelled as `Unit`) on success and
whether `logging.error` was emitted: the `else` branch logs and returns
`None` before any device is touched; an unopened device also logs and
returns `None`. -/
def initialize_video_capture (mode : Mode) (ip_address : Option String)
    (deviceOpens : Bool) : Option Unit × Bool :=
  match mode with
  | Mode.web => if deviceOpens then (some (), false) else (none, true)
  | Mode.mobile =>
    if pyTruthy ip_address then
      if deviceOpens then (some (), false) else (none, true)
    else
      (none, true)

/-- One iteration's worth of environment behaviour inside the `while`
loop of `main` (src/main.py lines 153-167): either `cap.read()` returns
`ret = False`, or it yields a frame, in which case `procRaises` says
whether per-frame processing raises an unexpected exception and
`qPressed` whether `waitKey` reports the stop key `q`. -/
inductive Event where
  | readFail : Event
  | frame : (procRaises : Bool) → (qPressed : Bool) → Event
deriving DecidableEq, Repr

/-- The ways a run of `main` ends. -/
inductive ExitReason where
  | sourceUnavailable
  | readFailure
  | userExit
  | unexpectedError
deriving DecidableEq, Repr

/-- Observable actions of `main`, in program order. -/
inductive Action where
  | capRead
  | procFrame
  | imshow
  | capRelease
  | destroyAllWindows
deriving DecidableEq, Repr

/-- The `while True` body of `main` (src/main.py lines 153-167), run
against a finite script of environment events; an exhausted script is an
exhausted stream, i.e. the next `cap.read()` returns `ret = False`.
Returns (frames fully processed and displayed, exit reason, action
trace).  An unexpected exception during `process_frame` propagates out of
the loop (caught by the `except` of src/main.py line 168). -/
def loopRun : List Event → Nat × ExitReason × List Action
  | [] => (0, ExitReason.readFailure, [Action.capRead])
  | Event.readFail :: _ => (0, ExitReason.readFailure, [Action.capRead])
  | Event.frame procRaises qPressed :: rest =>
    if procRaises then
      (0, ExitReason.unexpectedError, [Action.capRead])
    else if qPressed then
      (1, ExitReason.userExit, [Action.capRead, Action.procFrame, Action.imshow])
    else
      let r := loopRun rest
      (r.1 + 1, r.2.1,
        Action.capRead :: Action.procFrame :: Action.imshow :: r.2.2)

/-- The outcome of one run of `main`. -/
structure RunResult where
  enteredLoop : Bool
  framesProcessed : Nat
  exitReason : ExitReason
  trace : List Action
  errorReported : Bool
deriving DecidableEq, Repr

/-- `main` (src/main.py lines 144-174): open the capture; if that fails,
return at once (no loop, no release).  Otherwise run the loop inside
`try`; the `finally` releases the capture and destroys the windows on
every exit path.  `errorReported` records whether an error/exception was
logged: `initialize_video_capture` logs on failure, a failed read logs
`logging.error`, the `except` block logs `logging.exception`; the `q`
exit logs only info. -/
def main (mode : Mode) (ip : Option String) (deviceOpens : Bool)
    (script : List Event) : RunResult :=
  match initialize_video_capture mode ip deviceOpens with
  | (none, err) =>
    { enteredLoop := false, framesProcessed := 0,
      exitReason := ExitReason.sourceUnavailable, trace := [],
      errorReported := err }
  | (some _, _) =>
    let r := loopRun script
    { enteredLoop := true, framesProcessed := r.1, exitReason := r.2.1,
      trace := r.2.2 ++ [Action.capRelease, Action.destroyAllWindows],
      errorReported :=
        match r.2.1 with
        | ExitReason.userExit => false
        | _ => true }

/-- The classifier as a call with access to the process state: it reads
the configuration and returns the resulting state alongside the
direction.  `process_frame`'s classification (src/main.py lines 96-102)
reads `FRAME_WIDTH` and `LATERAL_THRESHOLD` and writes nothing. -/
structure Config where
  frameWidth : Int
  threshold : Int
deriving DecidableEq, Repr

def classifyCall (cfg : Config) (center_x : Int) : Direction × Config :=
  (classifyDirection center_x cfg.frameWidth cfg.threshold, cfg)

/-- A sequence of classifier calls threading the process state. -/
def classifySeq (cfg : Config) : List Int → List Direction × Config
  | [] => ([], cfg)
  | x :: xs =>
    let r := classifyCall cfg x
    let rs := classifySeq r.2 xs
    (r.1 :: rs.1, rs.2)

/-! ## Helper lemmas -/

lemma maxByArea_eq_none_iff (cnts : List Contour) :
    maxByArea cnts = none ↔ cnts = [] := by
  cases cnts <;> simp [maxByArea]

/-- The contour `maxByArea` selects from a nonempty list. -/
def largest (a : Contour) (as : List Contour) : Contour :=
  as.foldl (fun best x => if best.area < x.area then x else best) a

lemma maxByArea_cons (a : Contour) (as : List Contour) :
    maxByArea (a :: as) = some (largest a as) := rfl

lemma detect_cons (a : Contour) (as : List Contour) :
    detect (a :: as) =
      (if 0 < (largest a as).m00 ∧ MIN_RADIUS < (largest a as).radius then
         some ⟨(pyIntDiv (largest a as).m10 (largest a as).m00,
                pyIntDiv (largest a as).m01 (largest a as).m00),
               (largest a as).radius⟩
       else
         none) := rfl

/-! ## Claim theorems -/

/-- C1: For every detected center_x, the classifier partitions the
horizontal axis exhaustively with mid = frame_width / 2 (the source's
`frame_width // 2`): center_x < mid - threshold yields Left,
center_x > mid + threshold yields Right, every other center_x (including
the boundaries mid - threshold and mid + threshold) yields Center, and
absence of a detection yields NotDetected.  The threshold is a dead-zone
width, hence nonnegative (the program configures 100). -/
theorem classifyDirection_partitions (center_x frame_width threshold : Int)
    (cnts : List Contour) (ht : 0 ≤ threshold) :
    (center_x < Int.fdiv frame_width 2 - threshold →
      classifyDirection center_x frame_width threshold = Direction.Left) ∧
    (Int.fdiv frame_width 2 + threshold < center_x →
      classifyDirection center_x frame_width threshold = Direction.Right) ∧
    (Int.fdiv frame_width 2 - threshold ≤ center_x →
      center_x ≤ Int.fdiv frame_width 2 + threshold →
      classifyDirection center_x frame_width threshold = Direction.Center) ∧
    (detect cnts = none → processDirection cnts = Direction.NotDetected) := by
  refine ⟨?_, ?_, ?_, ?_⟩
  · intro h
    simp [classifyDirection, h]
  · intro h
    have h' : ¬ center_x < Int.fdiv frame_width 2 - threshold := by omega
    simp [classifyDirection, h', h]
  · intro h1 h2
    have h1' : ¬ center_x < Int.fdiv frame_width 2 - threshold := by omega
    have h2' : ¬ Int.fdiv frame_width 2 + threshold < center_x := by omega
    simp [classifyDirection, h1', h2']
  · intro h
    simp [processDirection, h]

theorem classifyDirection_partitions_witness :
    classifyDirection 450 1200 100 = Direction.Left ∧
    classifyDirection 750 1200 100 = Direction.Right ∧
    classifyDirection 500 1200 100 = Direction.Center ∧
    processDirection [] = Direction.NotDetected :=
  ⟨(classifyDirection_partitions 450 1200 100 [] (by decide)).1 (by decide),
   (classifyDirection_partitions 750 1200 100 [] (by decide)).2.1 (by decide),
   (classifyDirection_partitions 500 1200 100 [] (by decide)).2.2.1
     (by decide) (by decide),
   (classifyDirection_partitions 500 1200 100 [] (by decide)).2.2.2
     (by decide)⟩

/-- C2: Every detection result the Detector produces has an
enclosing-circle radius strictly exceeding the configured minimum; a
result with radius ≤ the minimum is never returned. -/
theorem detect_radius_gt_min (cnts : List Contour) (d : Detection)
    (h : detect cnts = some d) : MIN_RADIUS < d.radius := by
  cases cnts with
  | nil => exact absurd h (by simp [detect, maxByArea])
  | cons a as =>
    rw [detect_cons] at h
    split at h
    · next hp =>
      cases h
      exact hp.2
    · exact absurd h (by simp)

theorem detect_radius_gt_min_witness :
    MIN_RADIUS < (Detection.mk (2, 2) 20).radius :=
  detect_radius_gt_min [⟨4, 20, 4, 8, 8⟩] (Detection.mk (2, 2) 20) (by decide)

/-- A largest contour whose enclosing radius equals MIN_RADIUS exactly:
its radius is NOT below the minimum, yet `detect` rejects it, because the
source tests `radius > MIN_RADIUS` strictly. -/
def boundaryContour : Contour := ⟨4, 10, 4, 8, 8⟩

/-- C3 counterexample: a frame whose (unique, hence largest) contour has
enclosing radius exactly MIN_RADIUS — not below the threshold — still
yields no detection, refuting "a largest region whose radius is not below
the threshold produces a detection". -/
theorem detect_at_min_radius_counterexample :
    ¬ boundaryContour.radius < MIN_RADIUS ∧
    maxByArea [boundaryContour] = some boundaryContour ∧
    detect [boundaryContour] = none := by decide

lemma detect_none_char (cnts : List Contour) :
    detect cnts = none ↔
      cnts = [] ∨
        ∃ c, maxByArea cnts = some c ∧
          (c.radius ≤ MIN_RADIUS ∨ c.m00 ≤ 0) := by
  cases cnts with
  | nil => simp [detect, maxByArea]
  | cons a as =>
    rw [detect_cons]
    constructor
    · intro h
      refine Or.inr ⟨_, rfl, ?_⟩
      by_contra hc
      push_neg at hc
      rw [if_pos ⟨hc.2, hc.1⟩] at h
      exact Option.some_ne_none _ h
    · rintro (h | ⟨c, hc, hor⟩)
      · exact absurd h (List.cons_ne_nil a as)
      · rw [maxByArea_cons, Option.some.injEq] at hc
        subst hc
        rw [if_neg]
        rintro ⟨h1, h2⟩
        rcases hor with h3 | h3
        · exact absurd h2 (not_lt.mpr h3)
        · exact absurd h1 (not_lt.mpr h3)

/-- C3 (amended): the Detector returns no detection exactly when no
contour exists, or the largest contour's enclosing radius is at most the
minimum (the source's comparison is strict), or its zeroth moment m00 is
not positive; equivalently a detection is produced exactly when the
largest contour has radius strictly above the minimum and positive
m00. -/
theorem detect_eq_none_iff (cnts : List Contour) :
    detect cnts = none ↔
      cnts = [] ∨
        ∃ c, maxByArea cnts = some c ∧
          (c.radius ≤ MIN_RADIUS ∨ c.m00 ≤ 0) :=
  detect_none_char cnts

/-- C4: with the configured constants FRAME_WIDTH = 1200 and
LATERAL_THRESHOLD = 100 (so mid = 600), center_x = 450 classifies Left,
600 classifies Center, 750 classifies Right, and the boundary 700
classifies Center. -/
theorem classify_configured_scenario :
    Int.fdiv FRAME_WIDTH 2 = 600 ∧
    classifyDirection 450 FRAME_WIDTH LATERAL_THRESHOLD = Direction.Left ∧
    classifyDirection 600 FRAME_WIDTH LATERAL_THRESHOLD = Direction.Center ∧
    classifyDirection 750 FRAME_WIDTH LATERAL_THRESHOLD = Direction.Right ∧
    classifyDirection 700 FRAME_WIDTH LATERAL_THRESHOLD = Direction.Center := by
  decide

/-- C5: mobile mode without an IP address makes
`initialize_video_capture` fail (return None) with an error logged, and
`main` exits before entering the frame-processing loop: no loop action is
performed, regardless of the device state or the stream contents. -/
theorem mobile_without_ip_exits_before_loop (deviceOpens : Bool)
    (script : List Event) :
    initialize_video_capture Mode.mobile none deviceOpens = (none, true) ∧
    (main Mode.mobile none deviceOpens script).enteredLoop = false ∧
    (main Mode.mobile none deviceOpens script).errorReported = true ∧
    (main Mode.mobile none deviceOpens script).exitReason
      = ExitReason.sourceUnavailable ∧
    (main Mode.mobile none deviceOpens script).trace = [] := by
  refine ⟨rfl, ?_, ?_, ?_, ?_⟩ <;> rfl

/-- C6: on every exit path of the loop driver after the Frame Source was
successfully opened — operator stop key, end-of-stream / read failure, or
an unexpected exception during per-frame processing — the run's action
trace ends with releasing the capture and destroying the display
windows. -/
theorem resources_released_on_every_exit (mode : Mode) (ip : Option String)
    (deviceOpens : Bool) (script : List Event)
    (h : (main mode ip deviceOpens script).enteredLoop = true) :
    ∃ tr, (main mode ip deviceOpens script).trace
        = tr ++ [Action.capRelease, Action.destroyAllWindows] := by
  unfold main at h ⊢
  split at h
  · simp at h
  · exact ⟨(loopRun script).2.2, rfl⟩

theorem resources_released_on_every_exit_witness :
    ∃ tr, (main Mode.web none true [Event.frame false true]).trace
        = tr ++ [Action.capRelease, Action.destroyAllWindows] :=
  resources_released_on_every_exit Mode.web none true
    [Event.frame false true] (by decide)

/-- C7: the classifier is pure and deterministic: run as a sequence of
calls threading the process state, each call's output is the same
function of its own input and the initial configuration — independent of
call history — and the configuration state is returned unchanged (no side
effects). -/
theorem classify_pure_deterministic (cfg : Config) (xs : List Int) :
    classifySeq cfg xs
      = (xs.map (fun x => classifyDirection x cfg.frameWidth cfg.threshold),
         cfg) := by
  induction xs with
  | nil => rfl
  | cons x xs ih => simp [classifySeq, classifyCall, ih]

lemma loopRun_goodFrames (k : Nat) (rest : List Event) :
    loopRun (List.replicate k (Event.frame false false) ++ rest)
      = ((loopRun rest).1 + k, (loopRun rest).2.1,
         List.flatten (List.replicate k
           [Action.capRead, Action.procFrame, Action.imshow])
           ++ (loopRun rest).2.2) := by
  induction k with
  | zero => simp
  | succ n ih =>
    rw [List.replicate_succ, List.cons_append]
    simp only [loopRun, Bool.false_eq_true, if_false, ih,
      List.replicate_succ, List.flatten_cons, Prod.mk.injEq]
    refine ⟨by omega, by simp⟩

lemma count_capRead_flatten (k : Nat) :
    (List.flatten (List.replicate k
      [Action.capRead, Action.procFrame, Action.imshow])).count Action.capRead
      = k := by
  induction k with
  | zero => rfl
  | succ n ih =>
    rw [List.replicate_succ, List.flatten_cons, List.count_append, ih]
    have h1 : List.count Action.capRead
        [Action.capRead, Action.procFrame, Action.imshow] = 1 := rfl
    omega

lemma main_web_ok (script : List Event) :
    main Mode.web none true script
      = { enteredLoop := true,
          framesProcessed := (loopRun script).1,
          exitReason := (loopRun script).2.1,
          trace := (loopRun script).2.2
            ++ [Action.capRelease, Action.destroyAllWindows],
          errorReported :=
            match (loopRun script).2.1 with
            | ExitReason.userExit => false
            | _ => true } := rfl

/-- C8: a single failed frame read mid-stream terminates the processing
loop: after k successfully processed frames the failed read is reported,
the run exits with a read failure, no further frame of the remaining
stream is processed, and the read is not retried — exactly k + 1 read
actions occur in the whole run. -/
theorem read_failure_terminates_run (k : Nat) (rest : List Event) :
    (main Mode.web none true (List.replicate k (Event.frame false false)
        ++ Event.readFail :: rest)).exitReason = ExitReason.readFailure ∧
    (main Mode.web none true (List.replicate k (Event.frame false false)
        ++ Event.readFail :: rest)).framesProcessed = k ∧
    (main Mode.web none true (List.replicate k (Event.frame false false)
        ++ Event.readFail :: rest)).errorReported = true ∧
    (main Mode.web none true (List.replicate k (Event.frame false false)
        ++ Event.readFail :: rest)).trace.count Action.capRead = k + 1 := by
  have h0 : loopRun (Event.readFail :: rest)
      = (0, ExitReason.readFailure, [Action.capRead]) := rfl
  have hl := loopRun_goodFrames k (Event.readFail :: rest)
  rw [h0] at hl
  rw [main_web_ok, hl]
  refine ⟨rfl, by simp, rfl, ?_⟩
  simp [List.count_append, count_capRead_flatten, List.count_cons]

/-- The largest-area contour of the C9 witness frame: big but with an
enclosing radius below the minimum. -/
def largeDullContour : Contour := ⟨100, 5, 100, 0, 0⟩

/-- A smaller contour that would pass the radius and moment tests. -/
def smallQualifyingContour : Contour := ⟨1, 20, 1, 0, 0⟩

/-- C9: only the single contour of maximum area is tested against the
minimum-radius (and positive-moment) condition: if that largest contour
fails the test, the frame's result is NotDetected, even when some other
smaller-area contour would have passed. -/
theorem only_largest_contour_tested (cnts : List Contour) (c : Contour)
    (hmax : maxByArea cnts = some c)
    (hfail : c.radius ≤ MIN_RADIUS ∨ c.m00 ≤ 0)
    (_hother : ∃ c' ∈ cnts, MIN_RADIUS < c'.radius ∧ 0 < c'.m00) :
    processDirection cnts = Direction.NotDetected := by
  have hnone : detect cnts = none :=
    (detect_none_char cnts).mpr (Or.inr ⟨c, hmax, hfail⟩)
  simp [processDirection, hnone]

theorem only_largest_contour_tested_witness :
    processDirection [largeDullContour, smallQualifyingContour]
      = Direction.NotDetected :=
  only_largest_contour_tested [largeDullContour, smallQualifyingContour]
    largeDullContour (by decide) (Or.inl (by decide))
    ⟨smallQualifyingContour, by decide, by decide, by decide⟩

/-- A contour with zero zeroth moment but a large enclosing radius. -/
def zeroMomentContour : Contour := ⟨4, 20, 0, 8, 8⟩

/-- C10: the centroid division by the largest contour's zeroth moment m00
happens only under the guard m00 > 0 — every produced detection's center
comes from a division with a positive divisor — and a largest contour
with m00 = 0 yields NotDetected even when its enclosing radius exceeds
the minimum. -/
theorem centroid_division_guarded (cnts : List Contour) :
    (∀ d, detect cnts = some d →
       ∃ c, maxByArea cnts = some c ∧ 0 < c.m00 ∧
         d.center = (pyIntDiv c.m10 c.m00, pyIntDiv c.m01 c.m00)) ∧
    (∀ c, maxByArea cnts = some c → c.m00 = 0 → MIN_RADIUS < c.radius →
       processDirection cnts = Direction.NotDetected) := by
  constructor
  · intro d h
    cases cnts with
    | nil => exact absurd h (by simp [detect, maxByArea])
    | cons a as =>
      rw [detect_cons] at h
      split at h
      · next hp =>
        cases h
        exact ⟨largest a as, maxByArea_cons a as, hp.1, rfl⟩
      · exact absurd h (by simp)
  · intro c hmax hm00 _
    have hnone : detect cnts = none :=
      (detect_none_char cnts).mpr
        (Or.inr ⟨c, hmax, Or.inr (le_of_eq hm00)⟩)
    simp [processDirection, hnone]

theorem centroid_division_guarded_witness :
    (∃ c, maxByArea [(⟨4, 20, 4, 8, 8⟩ : Contour)] = some c ∧ 0 < c.m00 ∧
       (Detection.mk (2, 2) 20).center
         = (pyIntDiv c.m10 c.m00, pyIntDiv c.m01 c.m00)) ∧
    processDirection [zeroMomentContour] = Direction.NotDetected :=
  ⟨(centroid_division_guarded [⟨4, 20, 4, 8, 8⟩]).1
     (Detection.mk (2, 2) 20) (by decide),
   (centroid_division_guarded [zeroMomentContour]).2
     zeroMomentContour rfl rfl (by decide)⟩

end BallTracker
